import Mathlib

/-!
Verification of the domain composition engine of `fullwave_python`
(`fullwave_simulation.domains`), as exercised by
`examples/ex_plane_wave_linear_transducer_transabdominal_imaging.py`.

The material catalog (`MaterialProperties`) and the scatterer texture
injection step are embedded directly from the example source.  The body of
`DomainOrganizer` (registration, shape checking, bottom-up layering merge,
cache) is not part of the visible excerpt; those operations are modelled
from the specification's contract (§4.2–§4.3: registration-order
precedence, background baseline fill, `ignore_non_linearity`, fail-fast
shape checking, cache invalidation).

Channel values are rationals (`ℚ`): the Python floats here are exact
decimal constants and the merge algorithm only selects and linearly
combines values, so ℚ is a faithful carrier for the selection semantics.
-/

/-- The fixed set of named 2-D property channels of a domain:
density (rho), sound speed (c), attenuation coefficient (a),
nonlinearity (beta), tissue/air occupancy (air) and the structural
geometry mask (geometry). -/
inductive Channel : Type where
  | rho : Channel
  | c : Channel
  | a : Channel
  | beta : Channel
  | air : Channel
  | geometry : Channel
deriving DecidableEq, Fintype, Repr

/-- An immutable material record `{bovera, alpha, ppower, c0, rho0, beta}`
as stored in `MaterialProperties` (example source, lines 92–135). -/
structure Material : Type where
  bovera : ℚ
  alpha : ℚ
  ppower : ℚ
  c0 : ℚ
  rho0 : ℚ
  beta : ℚ
deriving DecidableEq, Repr

/-- `beta = 1 + bovera / 2`, derived once when the catalog is initialised:
each source dictionary is built and then extended with
`x["beta"] = 1 + x["bovera"] / 2`. -/
def mk_material (bovera alpha ppower c0 rho0 : ℚ) : Material :=
  { bovera := bovera, alpha := alpha, ppower := ppower, c0 := c0,
    rho0 := rho0, beta := 1 + bovera / 2 }

namespace MaterialProperties

/-- `fat = {"bovera": 9.6, "alpha": 0.48, "ppower": 1.1, "c0": 1478, "rho0": 950}`. -/
def fat : Material := mk_material 9.6 0.48 1.1 1478 950

/-- `liver = {"bovera": 7.6, "alpha": 0.5, "ppower": 1.0, "c0": 1570, "rho0": 1064}`. -/
def liver : Material := mk_material 7.6 0.5 1.0 1570 1064

/-- `muscle = {"bovera": 9, "alpha": 1.09, "ppower": 1.0, "c0": 1547, "rho0": 1050}`. -/
def muscle : Material := mk_material 9 1.09 1.0 1547 1050

/-- `water = {"bovera": 5, "alpha": 0.005, "ppower": 2.0, "c0": 1480, "rho0": 1000}`. -/
def water : Material := mk_material 5 0.005 2.0 1480 1000

/-- `skin = {"bovera": 8, "alpha": 2.1, "ppower": 1, "c0": 1498, "rho0": 1000}`. -/
def skin : Material := mk_material 8 2.1 1 1498 1000

/-- `tissue = {"bovera": 9, "alpha": 0.5, "ppower": 1, "c0": 1540, "rho0": 1000}`. -/
def tissue : Material := mk_material 9 0.5 1 1540 1000

/-- `connective = {"bovera": 8, "alpha": 1.57, "ppower": 1, "c0": 1613, "rho0": 1120}`. -/
def connective : Material := mk_material 8 1.57 1 1613 1120

/-- `blood = {"bovera": 5, "alpha": 0.005, "ppower": 2.0, "c0": 1520, "rho0": 1000}`. -/
def blood : Material := mk_material 5 0.005 2.0 1520 1000

/-- `lung_fluid = {"bovera": 5, "alpha": 0.005, "ppower": 2.0, "c0": 1440, "rho0": 1000}`. -/
def lung_fluid : Material := mk_material 5 0.005 2.0 1440 1000

/-- `lung_air = {"bovera": 5, "alpha": 0.005, "ppower": 2.0, "c0": 340, "rho0": 1000}`. -/
def lung_air : Material := mk_material 5 0.005 2.0 340 1000

/-- Scalar class attribute `c0 = 1540` of `MaterialProperties`. -/
def c0 : ℚ := 1540

/-- Scalar class attribute `rho0 = 1000` of `MaterialProperties`. -/
def rho0 : ℚ := 1000

/-- Scalar class attribute `a0 = 0.5` of `MaterialProperties`. -/
def a0 : ℚ := 0.5

/-- Scalar class attribute `beta0 = 0` of `MaterialProperties`. -/
def beta0 : ℚ := 0

end MaterialProperties

/-- Error raised on looking up a material name outside the fixed
enumerated catalog (spec §4.1, §7). -/
inductive ConfigurationError : Type where
  | unknown_material_name : String → ConfigurationError
deriving DecidableEq, Repr

/-- The fixed enumerated set of material names of the catalog. -/
def known_material_names : List String :=
  ["fat", "liver", "muscle", "water", "skin", "tissue", "connective",
   "blood", "lung_fluid", "lung_air"]

/-- Modelled from the spec: the `MaterialCatalog` lookup contract (§4.1).
The record table is taken verbatim from `MaterialProperties` in the
example source; the lookup mechanism itself (string key to record, with a
`ConfigurationError` on an unknown key) is not part of the visible
excerpt and follows the spec's words. -/
def lookup_material (name : String) : Except ConfigurationError Material :=
  if name = "fat" then .ok MaterialProperties.fat
  else if name = "liver" then .ok MaterialProperties.liver
  else if name = "muscle" then .ok MaterialProperties.muscle
  else if name = "water" then .ok MaterialProperties.water
  else if name = "skin" then .ok MaterialProperties.skin
  else if name = "tissue" then .ok MaterialProperties.tissue
  else if name = "connective" then .ok MaterialProperties.connective
  else if name = "blood" then .ok MaterialProperties.blood
  else if name = "lung_fluid" then .ok MaterialProperties.lung_fluid
  else if name = "lung_air" then .ok MaterialProperties.lung_air
  else .error (ConfigurationError.unknown_material_name name)

/-- A sub-domain: a lattice shape, one full set of channel arrays
(computed at construction, immutable thereafter) and a boolean occupancy
mask (spec §3, §4.2).  Arrays are total functions on cell indices. -/
structure SubDomain : Type where
  num_x : Nat
  num_y : Nat
  rho_map : Nat → Nat → ℚ
  c_map : Nat → Nat → ℚ
  a_map : Nat → Nat → ℚ
  beta_map : Nat → Nat → ℚ
  air_map : Nat → Nat → ℚ
  geometry : Nat → Nat → ℚ
  occupancy_mask : Nat → Nat → Bool

/-- Channel-by-name access to a sub-domain's arrays (spec §4.2
`get_channel`). -/
def SubDomain.get_channel (d : SubDomain) : Channel → Nat → Nat → ℚ
  | Channel.rho => d.rho_map
  | Channel.c => d.c_map
  | Channel.a => d.a_map
  | Channel.beta => d.beta_map
  | Channel.air => d.air_map
  | Channel.geometry => d.geometry

/-- `csr = 0.035`: 3.5% variation in density (example source, line 228). -/
def csr : ℚ := 0.035

/-- Scatterer texture injection, embedded from the example source
(line 229): `background.rho_map = background.rho_map - scatterer.rho_map * csr`.
Only the density channel of the background is rebound; every other
attribute of the background sub-domain is left as it was. -/
def add_scatterer (background scatterer : SubDomain) : SubDomain :=
  { background with
    rho_map := fun i j => background.rho_map i j - scatterer.rho_map i j * csr }

/-!  Sanity checks for the catalog embedding.  -/

example : MaterialProperties.water.beta = 3.5 := by norm_num [MaterialProperties.water, mk_material]

example : MaterialProperties.fat.beta = 5.8 := by norm_num [MaterialProperties.fat, mk_material]

/-- Error raised when a sub-domain whose lattice shape disagrees with the
previously registered ones is registered; it carries the registration
index at which the invariant failed (spec §4.2, §7). -/
inductive ShapeMismatchError : Type where
  | at_index : Nat → ShapeMismatchError
deriving DecidableEq, Repr

/-- Error raised on reading the composite channels before any
`construct_domain()` call (spec §4.3, §7). -/
inductive NotConstructedError : Type where
  | not_constructed : NotConstructedError
deriving DecidableEq, Repr

/-- Modelled from the spec: the state of a `DomainOrganizer`
(`DomainCompositor`, §4.3), whose implementation is not part of the
visible excerpt: the baseline record of the declared background material,
the `ignore_non_linearity` flag fixed at construction, the ordered
registration list, and the cached composite (none before the first
`construct_domain()` call and after every cache invalidation). -/
structure DomainOrganizer : Type where
  background : Material
  ignore_non_linearity : Bool
  registered_domains : List SubDomain
  constructed : Option (Channel → Nat → Nat → ℚ)

/-- Modelled from the spec: `DomainOrganizer(material_properties, ignore_non_linearity,
background_domain_properties)` — the compositor is created empty, holding
the baseline record looked up for the declared background material name
(§4.1, §4.3). -/
def DomainOrganizer.create (ignore_non_linearity : Bool)
    (background_domain_properties : String) :
    Except ConfigurationError DomainOrganizer :=
  match lookup_material background_domain_properties with
  | .ok m =>
      .ok { background := m, ignore_non_linearity := ignore_non_linearity,
            registered_domains := [], constructed := none }
  | .error e => .error e

/-- Whether a candidate sub-domain's lattice shape agrees with the
previously registered ones (all of which share one shape, so the head is
representative); the first registration fixes the shape. -/
def DomainOrganizer.shape_ok (org : DomainOrganizer) (d : SubDomain) : Bool :=
  match org.registered_domains with
  | [] => true
  | d0 :: _ => d.num_x == d0.num_x && d.num_y == d0.num_y

/-- Modelled from the spec: appending one sub-domain (§4.3).  A shape
disagreement fails immediately with a `ShapeMismatchError` naming the
registration index; a successful registration appends the sub-domain and
invalidates the cached composite. -/
def DomainOrganizer.register_one (org : DomainOrganizer) (d : SubDomain) :
    Except ShapeMismatchError DomainOrganizer :=
  if org.shape_ok d then
    .ok { org with
          registered_domains := org.registered_domains ++ [d]
          constructed := none }
  else
    .error (ShapeMismatchError.at_index org.registered_domains.length)

/-- Modelled from the spec: `register_domains(ordered_list)` appends the
sub-domains in the given order, checking each shape at registration time
(§4.3); later calls append further entries rather than replacing. -/
def DomainOrganizer.register_domains (org : DomainOrganizer) :
    List SubDomain → Except ShapeMismatchError DomainOrganizer
  | [] => .ok org
  | d :: rest =>
      match org.register_one d with
      | .ok org1 => org1.register_domains rest
      | .error e => .error e

/-- Baseline composite value per channel: the background material's
baseline scalar for rho/c/a/beta, and the background default non-air,
solid state for the air and geometry masks (spec §4.3). -/
def baseline (background : Material) : Channel → ℚ
  | Channel.rho => background.rho0
  | Channel.c => background.c0
  | Channel.a => background.alpha
  | Channel.beta => background.beta
  | Channel.air => 0
  | Channel.geometry => 1

/-- Bottom-up layering of one cell of one channel: starting from the
baseline, each registered sub-domain in registration order overwrites the
cell wherever its occupancy mask is true (spec §4.3, "sticker" merge). -/
def layer_cell (base : ℚ) (domains : List SubDomain) (ch : Channel)
    (i j : Nat) : ℚ :=
  domains.foldl
    (fun acc d => if d.occupancy_mask i j then d.get_channel ch i j else acc)
    base

/-- Modelled from the spec: the merge algorithm of `construct_domain()`
(§4.3) as a pure function of the compositor's registrations.  Every
channel starts at the background baseline and is layered in registration
order; if `ignore_non_linearity` is set, the beta channel is instead
forced to the background's baseline beta everywhere. -/
def composite_fun (background : Material) (ignore_non_linearity : Bool)
    (domains : List SubDomain) : Channel → Nat → Nat → ℚ :=
  fun ch i j =>
    if ignore_non_linearity = true ∧ ch = Channel.beta then background.beta
    else layer_cell (baseline background ch) domains ch i j

/-- Modelled from the spec: `construct_domain()` performs the merge and
caches the resulting composite, always recomputing from the current
registrations (§4.3). -/
def DomainOrganizer.construct_domain (org : DomainOrganizer) : DomainOrganizer :=
  { org with
    constructed :=
      some (composite_fun org.background org.ignore_non_linearity
        org.registered_domains) }

/-- Modelled from the spec: the `constructed_domain_dict` read accessor —
the finished channel arrays after at least one `construct_domain()` call,
`NotConstructedError` before (§4.3). -/
def DomainOrganizer.constructed_domain_dict (org : DomainOrganizer) :
    Except NotConstructedError (Channel → Nat → Nat → ℚ) :=
  match org.constructed with
  | some f => .ok f
  | none => .error NotConstructedError.not_constructed

/-- Read one cell of one channel of the cached composite (`none` when the
composite has not been constructed). -/
def DomainOrganizer.get_composite (org : DomainOrganizer) (ch : Channel)
    (i j : Nat) : Option ℚ :=
  org.constructed.map fun f => f ch i j

/-!  Layering lemmas.  -/

lemma layer_cell_cons (base : ℚ) (d : SubDomain) (rest : List SubDomain)
    (ch : Channel) (i j : Nat) :
    layer_cell base (d :: rest) ch i j =
      layer_cell (if d.occupancy_mask i j then d.get_channel ch i j else base)
        rest ch i j := rfl

/-- A cell claimed by no sub-domain of the list keeps the base value. -/
lemma layer_cell_of_no_claim (base : ℚ) (domains : List SubDomain)
    (ch : Channel) (i j : Nat)
    (h : ∀ d ∈ domains, d.occupancy_mask i j = false) :
    layer_cell base domains ch i j = base := by
  induction domains generalizing base with
  | nil => rfl
  | cons d rest ih =>
      have hd : d.occupancy_mask i j = false := h d (List.mem_cons_self d rest)
      have hrest : ∀ d0 ∈ rest, d0.occupancy_mask i j = false :=
        fun d0 hd0 => h d0 (List.mem_cons_of_mem d hd0)
      rw [layer_cell_cons, hd]
      simpa using ih base hrest

/-- A cell whose highest-index claimant is the sub-domain at index `k`
ends up with that sub-domain's channel value. -/
lemma layer_cell_last_claimant (base : ℚ) (domains : List SubDomain)
    (ch : Channel) (i j : Nat) (k : Nat) (hk : k < domains.length)
    (hclaim : (domains.get ⟨k, hk⟩).occupancy_mask i j = true)
    (hlast : ∀ k' (hk' : k' < domains.length), k < k' →
      (domains.get ⟨k', hk'⟩).occupancy_mask i j = false) :
    layer_cell base domains ch i j =
      (domains.get ⟨k, hk⟩).get_channel ch i j := by
  induction domains generalizing base k with
  | nil => exact absurd hk (Nat.not_lt_zero k)
  | cons d rest ih =>
      cases k with
      | zero =>
          have hd : d.occupancy_mask i j = true := hclaim
          have hrest : ∀ d0 ∈ rest, d0.occupancy_mask i j = false := by
            intro d0 hd0
            obtain ⟨⟨k', hk'⟩, rfl⟩ := List.mem_iff_get.mp hd0
            exact hlast (k' + 1) (Nat.succ_lt_succ hk') (Nat.succ_pos k')
          rw [layer_cell_cons, hd]
          simpa using layer_cell_of_no_claim _ rest ch i j hrest
      | succ k =>
          have hk0 : k < rest.length := Nat.lt_of_succ_lt_succ hk
          have hclaim0 : (rest.get ⟨k, hk0⟩).occupancy_mask i j = true := hclaim
          have hlast0 : ∀ k' (hk' : k' < rest.length), k < k' →
              (rest.get ⟨k', hk'⟩).occupancy_mask i j = false :=
            fun k' hk' hlt =>
              hlast (k' + 1) (Nat.succ_lt_succ hk') (Nat.succ_lt_succ hlt)
          rw [layer_cell_cons]
          exact ih _ k hk0 hclaim0 hlast0

/-- Any cell claimed at all has a highest-index claimant. -/
lemma exists_last_claimant (domains : List SubDomain) (i j : Nat)
    (h : ∃ d ∈ domains, d.occupancy_mask i j = true) :
    ∃ (k : Nat) (hk : k < domains.length),
      (domains.get ⟨k, hk⟩).occupancy_mask i j = true ∧
      ∀ k' (hk' : k' < domains.length), k < k' →
        (domains.get ⟨k', hk'⟩).occupancy_mask i j = false := by
  induction domains with
  | nil => simp at h
  | cons d rest ih =>
      by_cases hr : ∃ d0 ∈ rest, d0.occupancy_mask i j = true
      · obtain ⟨k, hk, hc, hl⟩ := ih hr
        refine ⟨k + 1, Nat.succ_lt_succ hk, hc, ?_⟩
        intro k' hk' hgt
        cases k' with
        | zero => omega
        | succ k'' =>
            exact hl k'' (Nat.lt_of_succ_lt_succ hk') (Nat.lt_of_succ_lt_succ hgt)
      · have hd : d.occupancy_mask i j = true := by
          rcases h with ⟨d0, hd0, hmask⟩
          rcases List.mem_cons.mp hd0 with rfl | hmem
          · exact hmask
          · exact absurd ⟨d0, hmem, hmask⟩ hr
        refine ⟨0, Nat.succ_pos _, hd, ?_⟩
        intro k' hk' hgt
        cases k' with
        | zero => omega
        | succ k'' =>
            have hk'' : k'' < rest.length := Nat.lt_of_succ_lt_succ hk'
            have hmem : rest.get ⟨k'', hk''⟩ ∈ rest := List.get_mem rest _ _
            have hne : ¬ (rest.get ⟨k'', hk''⟩).occupancy_mask i j = true :=
              fun hc => hr ⟨_, hmem, hc⟩
            exact Bool.eq_false_iff.mpr hne

/-- Appending one sub-domain changes a layered cell only where the new
sub-domain's mask is true. -/
lemma layer_cell_append (base : ℚ) (l : List SubDomain) (d : SubDomain)
    (ch : Channel) (i j : Nat) :
    layer_cell base (l ++ [d]) ch i j =
      if d.occupancy_mask i j then d.get_channel ch i j
      else layer_cell base l ch i j := by
  simp [layer_cell, List.foldl_append]

/-!  Composite lemmas shared by the claims.  -/

lemma get_composite_construct (org : DomainOrganizer) (ch : Channel)
    (i j : Nat) :
    org.construct_domain.get_composite ch i j =
      some (composite_fun org.background org.ignore_non_linearity
        org.registered_domains ch i j) := rfl

lemma composite_beta_of_flag (org : DomainOrganizer)
    (hflag : org.ignore_non_linearity = true) (i j : Nat) :
    org.construct_domain.get_composite Channel.beta i j =
      some org.background.beta := by
  rw [get_composite_construct]
  simp [composite_fun, hflag]

lemma composite_eq_layer (org : DomainOrganizer) (ch : Channel)
    (hch : ch ≠ Channel.beta ∨ org.ignore_non_linearity = false) (i j : Nat) :
    org.construct_domain.get_composite ch i j =
      some (layer_cell (baseline org.background ch)
        org.registered_domains ch i j) := by
  rw [get_composite_construct]
  have hcond : ¬ (org.ignore_non_linearity = true ∧ ch = Channel.beta) := by
    rcases hch with h | h
    · exact fun hc => h hc.2
    · intro hc
      rw [h] at hc
      exact Bool.false_ne_true hc.1
  unfold composite_fun
  rw [if_neg hcond]

lemma composite_no_claim (org : DomainOrganizer) (i j : Nat)
    (h : ∀ d ∈ org.registered_domains, d.occupancy_mask i j = false)
    (ch : Channel) :
    org.construct_domain.get_composite ch i j =
      some (baseline org.background ch) := by
  rw [get_composite_construct]
  unfold composite_fun
  split_ifs with hcond
  · rw [hcond.2]
    rfl
  · exact congrArg some (layer_cell_of_no_claim _ _ _ _ _ h)

lemma composite_last_claimant (org : DomainOrganizer) (i j k : Nat)
    (hk : k < org.registered_domains.length)
    (hclaim : (org.registered_domains.get ⟨k, hk⟩).occupancy_mask i j = true)
    (hlast : ∀ k' (hk' : k' < org.registered_domains.length), k < k' →
      (org.registered_domains.get ⟨k', hk'⟩).occupancy_mask i j = false)
    (ch : Channel)
    (hch : ch ≠ Channel.beta ∨ org.ignore_non_linearity = false) :
    org.construct_domain.get_composite ch i j =
      some ((org.registered_domains.get ⟨k, hk⟩).get_channel ch i j) := by
  rw [composite_eq_layer org ch hch]
  exact congrArg some (layer_cell_last_claimant _ _ _ _ _ k hk hclaim hlast)

/-- `register_domains` on a one-element list, unfolded. -/
lemma register_domains_single (org : DomainOrganizer) (d : SubDomain) :
    org.register_domains [d] =
      if org.shape_ok d then
        Except.ok
          { org with
            registered_domains := org.registered_domains ++ [d]
            constructed := none }
      else
        Except.error
          (ShapeMismatchError.at_index org.registered_domains.length) := by
  unfold DomainOrganizer.register_domains DomainOrganizer.register_one
  split_ifs with h <;> simp [DomainOrganizer.register_domains]

/-!  Concrete instances (spec §8 scenario and variants).  -/

/-- A constant-valued channel array. -/
def const_grid (q : ℚ) : Nat → Nat → ℚ := fun _ _ => q

/-- SubDomain A of the spec scenario: occupies rows 0–1 fully,
density 1200 (spec §8). -/
def scenA : SubDomain :=
  { num_x := 4
    num_y := 4
    rho_map := const_grid 1200
    c_map := const_grid 1540
    a_map := const_grid 0.7
    beta_map := const_grid 2
    air_map := const_grid 0
    geometry := const_grid 1
    occupancy_mask := fun i _ => decide (i < 2) }

/-- SubDomain B of the spec scenario: occupies column 0 fully,
density 1500, registered after A (spec §8). -/
def scenB : SubDomain :=
  { num_x := 4
    num_y := 4
    rho_map := const_grid 1500
    c_map := const_grid 1600
    a_map := const_grid 0.9
    beta_map := const_grid 2.2
    air_map := const_grid 0
    geometry := const_grid 1
    occupancy_mask := fun _ j => decide (j = 0) }

/-- A further sub-domain claiming only cell (3, 3), used to exercise the
frame property of a later registration. -/
def dNew : SubDomain :=
  { num_x := 4
    num_y := 4
    rho_map := const_grid 1700
    c_map := const_grid 1650
    a_map := const_grid 1.1
    beta_map := const_grid 3
    air_map := const_grid 0
    geometry := const_grid 1
    occupancy_mask := fun i j => decide (i = 3 ∧ j = 3) }

/-- A sub-domain whose lattice shape (5 × 4) disagrees with the 4 × 4
scenario domains. -/
def badShape : SubDomain :=
  { num_x := 5
    num_y := 4
    rho_map := const_grid 0
    c_map := const_grid 0
    a_map := const_grid 0
    beta_map := const_grid 0
    air_map := const_grid 0
    geometry := const_grid 0
    occupancy_mask := fun _ _ => false }

/-- The spec §8 scenario compositor: 4 × 4 lattice, background water,
sub-domains A then B, nonlinearity layered normally. -/
def orgScen : DomainOrganizer :=
  { background := MaterialProperties.water
    ignore_non_linearity := false
    registered_domains := [scenA, scenB]
    constructed := none }

/-- The scenario compositor after additionally registering `dNew`. -/
def orgScenPlus : DomainOrganizer :=
  { background := MaterialProperties.water
    ignore_non_linearity := false
    registered_domains := [scenA, scenB, dNew]
    constructed := none }

/-- The scenario compositor with `ignore_non_linearity=True` and a
tissue background, mirroring the example driver's configuration. -/
def orgBetaFlag : DomainOrganizer :=
  { background := MaterialProperties.tissue
    ignore_non_linearity := true
    registered_domains := [scenA, scenB]
    constructed := none }

/-- A compositor with `ignore_non_linearity=True` and a single registered
sub-domain, for the cross-channel consistency analysis. -/
def orgC3cex : DomainOrganizer :=
  { background := MaterialProperties.tissue
    ignore_non_linearity := true
    registered_domains := [scenB]
    constructed := none }

/-- A compositor holding only sub-domain A, for shape-check analysis. -/
def orgSingleA : DomainOrganizer :=
  { background := MaterialProperties.water
    ignore_non_linearity := false
    registered_domains := [scenA]
    constructed := none }

/-!  Claim theorems.  -/

/-- C1 (counterexample to the claim as stated): in the compositor
configuration of the example driver (`ignore_non_linearity=True`,
background `tissue`), sub-domains A and B both claim cell (0, 0) with B
registered after A, yet the composite beta channel there is the
background's baseline (11/2), not B's beta value (11/5): not every one of
the six channels takes B's value. -/
theorem precedence_beta_flag_cex :
    scenA.occupancy_mask 0 0 = true ∧ scenB.occupancy_mask 0 0 = true ∧
    orgBetaFlag.construct_domain.get_composite Channel.beta 0 0 =
      some (11 / 2) ∧
    scenB.beta_map 0 0 = 11 / 5 ∧
    orgBetaFlag.construct_domain.get_composite Channel.beta 0 0 ≠
      some (scenB.beta_map 0 0) := by
  have hval : orgBetaFlag.construct_domain.get_composite Channel.beta 0 0 =
      some (11 / 2) := by
    rw [composite_beta_of_flag orgBetaFlag rfl 0 0]
    norm_num [orgBetaFlag, MaterialProperties.tissue, mk_material]
  have hB : scenB.beta_map 0 0 = 11 / 5 := by
    norm_num [scenB, const_grid]
  refine ⟨rfl, rfl, hval, hB, ?_⟩
  rw [hval, hB]
  intro hc
  have h2 : (11 / 2 : ℚ) = 11 / 5 := Option.some.inj hc
  norm_num at h2

/-- C1 (amended): a cell claimed by several registered SubDomains takes
every channel value from the highest-index (most recently registered)
claimant, except the beta channel when the compositor was constructed
with `ignore_non_linearity=True`, in which case the composite beta is the
background's baseline beta. -/
theorem precedence_highest_index_claimant (org : DomainOrganizer)
    (i j k : Nat) (hk : k < org.registered_domains.length)
    (hclaim : (org.registered_domains.get ⟨k, hk⟩).occupancy_mask i j = true)
    (hlast : ∀ k' (hk' : k' < org.registered_domains.length), k < k' →
      (org.registered_domains.get ⟨k', hk'⟩).occupancy_mask i j = false) :
    (∀ ch, (ch ≠ Channel.beta ∨ org.ignore_non_linearity = false) →
      org.construct_domain.get_composite ch i j =
        some ((org.registered_domains.get ⟨k, hk⟩).get_channel ch i j)) ∧
    (org.ignore_non_linearity = true →
      org.construct_domain.get_composite Channel.beta i j =
        some org.background.beta) := by
  constructor
  · intro ch hch
    exact composite_last_claimant org i j k hk hclaim hlast ch hch
  · intro hflag
    exact composite_beta_of_flag org hflag i j

/-- C1 (witness): in the spec §8 scenario (background water, A rows 0–1
with density 1200, then B column 0 with density 1500), cell (0, 0) is
claimed by both and the composite density there is B's 1500. -/
theorem precedence_highest_index_claimant_witness :
    orgScen.construct_domain.get_composite Channel.rho 0 0 = some 1500 := by
  have h := precedence_highest_index_claimant orgScen 0 0 1 (by decide)
    (by decide)
    (by
      intro k' hk' hgt
      exfalso
      have h2 : k' < 2 := hk'
      omega)
  refine (h.1 Channel.rho (Or.inr rfl)).trans ?_
  show some (scenB.get_channel Channel.rho 0 0) = some 1500
  norm_num [scenB, SubDomain.get_channel, const_grid]

/-- C2 (confirmed): a cell claimed by no registered SubDomain keeps, in
every channel, the baseline value of the background material declared at
compositor construction. -/
theorem background_conservation (org : DomainOrganizer) (i j : Nat)
    (h : ∀ d ∈ org.registered_domains, d.occupancy_mask i j = false)
    (ch : Channel) :
    org.construct_domain.get_composite ch i j =
      some (baseline org.background ch) :=
  composite_no_claim org i j h ch

/-- C2 (witness): in the spec §8 scenario, cell (2, 2) is claimed by
neither A (rows 0–1) nor B (column 0) and the composite density there is
the water baseline 1000. -/
theorem background_conservation_witness :
    orgScen.construct_domain.get_composite Channel.rho 2 2 = some 1000 := by
  have h := background_conservation orgScen 2 2 (by decide) Channel.rho
  exact h.trans (by decide)

/-- C3 (counterexample to the claim as stated): with
`ignore_non_linearity=True`, background `tissue` and the single
sub-domain B claiming cell (0, 0), the composite tuple at (0, 0) mixes
layers: its density is B's 1500 (so not all channels are background) but
its beta is the background's 11/2 rather than B's 11/5 (so not all
channels are B's). -/
theorem cross_channel_source_cex :
    ¬ ((∃ d ∈ orgC3cex.registered_domains, ∀ ch,
          orgC3cex.construct_domain.get_composite ch 0 0 =
            some (d.get_channel ch 0 0)) ∨
       (∀ ch, orgC3cex.construct_domain.get_composite ch 0 0 =
          some (baseline orgC3cex.background ch))) := by
  have hbeta : orgC3cex.construct_domain.get_composite Channel.beta 0 0 =
      some MaterialProperties.tissue.beta :=
    composite_beta_of_flag orgC3cex rfl 0 0
  have hrho : orgC3cex.construct_domain.get_composite Channel.rho 0 0 =
      some (scenB.get_channel Channel.rho 0 0) :=
    composite_last_claimant orgC3cex 0 0 0 (by decide) (by decide)
      (by
        intro k' hk' hgt
        exfalso
        have h1 : k' < 1 := hk'
        omega)
      Channel.rho (Or.inl (by decide))
  rintro (⟨d, hd, hall⟩ | hall)
  · have hdB : d = scenB := List.mem_singleton.mp hd
    subst hdB
    have h1 := hall Channel.beta
    rw [hbeta] at h1
    have h2 : MaterialProperties.tissue.beta =
        scenB.get_channel Channel.beta 0 0 := Option.some.inj h1
    norm_num [MaterialProperties.tissue, mk_material, scenB,
      SubDomain.get_channel, const_grid] at h2
  · have h1 := hall Channel.rho
    rw [hrho] at h1
    have h2 : scenB.get_channel Channel.rho 0 0 =
        baseline orgC3cex.background Channel.rho := Option.some.inj h1
    norm_num [scenB, SubDomain.get_channel, const_grid, baseline, orgC3cex,
      MaterialProperties.tissue, mk_material] at h2

/-- C3 (amended): for every cell, the channels rho, c, a, air and
geometry all originate from one and the same contributing SubDomain or
all from the background baseline; beta originates from that same source
when `ignore_non_linearity` is false, and is the background's baseline
beta when the flag is true. -/
theorem cross_channel_source_amended (org : DomainOrganizer) (i j : Nat) :
    (org.ignore_non_linearity = true →
      org.construct_domain.get_composite Channel.beta i j =
        some org.background.beta) ∧
    ((∃ d ∈ org.registered_domains,
        (∀ ch, ch ≠ Channel.beta →
          org.construct_domain.get_composite ch i j =
            some (d.get_channel ch i j)) ∧
        (org.ignore_non_linearity = false →
          org.construct_domain.get_composite Channel.beta i j =
            some (d.get_channel Channel.beta i j))) ∨
      (∀ ch, org.construct_domain.get_composite ch i j =
        some (baseline org.background ch))) := by
  constructor
  · intro hflag
    exact composite_beta_of_flag org hflag i j
  · by_cases hc : ∃ d ∈ org.registered_domains, d.occupancy_mask i j = true
    · left
      obtain ⟨k, hk, hclaim, hlast⟩ := exists_last_claimant _ i j hc
      refine ⟨org.registered_domains.get ⟨k, hk⟩, List.get_mem _ _ _, ?_, ?_⟩
      · intro ch hch
        exact composite_last_claimant org i j k hk hclaim hlast ch (Or.inl hch)
      · intro hflag
        exact composite_last_claimant org i j k hk hclaim hlast Channel.beta
          (Or.inr hflag)
    · right
      intro ch
      have hall : ∀ d ∈ org.registered_domains, d.occupancy_mask i j = false :=
        fun d hd => Bool.eq_false_iff.mpr (fun ht => hc ⟨d, hd, ht⟩)
      exact composite_no_claim org i j hall ch

/-- C3 (witness): with `ignore_non_linearity=True` (the example driver's
configuration), the composite beta at cell (1, 1) is the background's
baseline beta, as the amended claim's flag clause states. -/
theorem cross_channel_source_amended_witness :
    orgBetaFlag.construct_domain.get_composite Channel.beta 1 1 =
      some orgBetaFlag.background.beta :=
  (cross_channel_source_amended orgBetaFlag 1 1).1 rfl

/-- C4 (confirmed): with `ignore_non_linearity=True` at compositor
construction, the composite beta channel after `construct_domain()` is
the background material's baseline beta at every cell, regardless of any
registered sub-domain or occupancy mask. -/
theorem ignore_non_linearity_forces_background_beta (org : DomainOrganizer)
    (hflag : org.ignore_non_linearity = true) (i j : Nat) :
    org.construct_domain.get_composite Channel.beta i j =
      some org.background.beta :=
  composite_beta_of_flag org hflag i j

/-- C4 (witness): the flagged scenario compositor (background tissue,
sub-domains A and B with beta channels 2 and 11/5) yields the tissue
baseline beta at cell (0, 0). -/
theorem ignore_non_linearity_forces_background_beta_witness :
    orgBetaFlag.construct_domain.get_composite Channel.beta 0 0 =
      some MaterialProperties.tissue.beta :=
  ignore_non_linearity_forces_background_beta orgBetaFlag rfl 0 0

/-- C5 (confirmed): calling `construct_domain()` twice with no
intervening registration produces identical composite arrays, cell for
cell in every channel — the merge is a pure function of the registration
list, which a reconstruction does not change. -/
theorem construct_domain_idempotent (org : DomainOrganizer) (ch : Channel)
    (i j : Nat) :
    org.construct_domain.construct_domain.get_composite ch i j =
      org.construct_domain.get_composite ch i j := rfl

/-- C6 (confirmed): registering one further sub-domain after a prior
`construct_domain()` call and reconstructing leaves every channel value
unchanged at every cell outside the new sub-domain's occupancy
footprint. -/
theorem register_after_construct_frame (org : DomainOrganizer)
    (d : SubDomain) (org2 : DomainOrganizer)
    (hreg : org.construct_domain.register_domains [d] = Except.ok org2)
    (ch : Channel) (i j : Nat) (hmask : d.occupancy_mask i j = false) :
    org2.construct_domain.get_composite ch i j =
      org.construct_domain.get_composite ch i j := by
  rw [register_domains_single] at hreg
  split_ifs at hreg with hsh
  · injection hreg with h2
    subst h2
    rw [get_composite_construct, get_composite_construct]
    show some (composite_fun org.background org.ignore_non_linearity
        (org.registered_domains ++ [d]) ch i j) =
      some (composite_fun org.background org.ignore_non_linearity
        org.registered_domains ch i j)
    unfold composite_fun
    split_ifs with hcond
    · rfl
    · rw [layer_cell_append]
      simp [hmask]

/-- C6 (witness): after constructing the scenario composite, registering
`dNew` (which claims only cell (3, 3)) and reconstructing leaves the
density at cell (0, 0) unchanged. -/
theorem register_after_construct_frame_witness :
    orgScenPlus.construct_domain.get_composite Channel.rho 0 0 =
      orgScen.construct_domain.get_composite Channel.rho 0 0 :=
  register_after_construct_frame orgScen dNew orgScenPlus rfl
    Channel.rho 0 0 rfl

lemma shape_ok_cons (org : DomainOrganizer) (d d0 : SubDomain)
    (rest : List SubDomain) (hcons : org.registered_domains = d0 :: rest) :
    org.shape_ok d = (d.num_x == d0.num_x && d.num_y == d0.num_y) := by
  unfold DomainOrganizer.shape_ok
  rw [hcons]

/-- C7 (confirmed): when at least one sub-domain is registered (all of
the registered ones sharing the lattice shape `(sx, sy)`),
`register_domains` returns a `ShapeMismatchError` exactly when the new
sub-domain's shape disagrees with `(sx, sy)`; a shape-consistent
registration does not fail.  The error is produced by the registration
call itself — `construct_domain` is total in this model, so the failure
can only surface at registration time. -/
theorem register_shape_mismatch_fail_fast (org : DomainOrganizer)
    (d : SubDomain) (sx sy : Nat)
    (hall : ∀ d0 ∈ org.registered_domains, d0.num_x = sx ∧ d0.num_y = sy)
    (hne : org.registered_domains ≠ []) :
    (∃ e, org.register_domains [d] = Except.error e) ↔
      ¬ (d.num_x = sx ∧ d.num_y = sy) := by
  obtain ⟨d0, rest, hcons⟩ := List.exists_cons_of_ne_nil hne
  obtain ⟨h1, h2⟩ := hall d0 (by rw [hcons]; exact List.mem_cons_self _ _)
  have hshape := shape_ok_cons org d d0 rest hcons
  rw [register_domains_single]
  constructor
  · rintro ⟨e, he⟩ hagree
    have hsok : org.shape_ok d = true := by
      rw [hshape, hagree.1, hagree.2, h1, h2]
      simp
    rw [if_pos hsok] at he
    cases he
  · intro hnag
    have hsok : org.shape_ok d = false := by
      by_cases hx : d.num_x = sx
      · have hy : d.num_y ≠ d0.num_y := by
          rw [h2]
          exact fun h => hnag ⟨hx, h⟩
        simp [hshape, hy]
      · have hx0 : d.num_x ≠ d0.num_x := by
          rw [h1]
          exact hx
        simp [hshape, hx0]
    refine ⟨ShapeMismatchError.at_index org.registered_domains.length, ?_⟩
    simp [hsok]

/-- C7 (witness): registering the 5 × 4 sub-domain `badShape` into the
compositor already holding the 4 × 4 sub-domain A fails with a
`ShapeMismatchError`. -/
theorem register_shape_mismatch_fail_fast_witness :
    ∃ e, orgSingleA.register_domains [badShape] = Except.error e := by
  have hall : ∀ d0 ∈ orgSingleA.registered_domains,
      d0.num_x = 4 ∧ d0.num_y = 4 := by
    intro d0 hd0
    have h := List.mem_singleton.mp hd0
    subst h
    exact ⟨rfl, rfl⟩
  have hne : orgSingleA.registered_domains ≠ [] := List.cons_ne_nil _ _
  exact (register_shape_mismatch_fail_fast orgSingleA badShape 4 4
    hall hne).mpr (fun hc => absurd hc.1 (by decide))

lemma lookup_known_no_error {name : String} {m : Material}
    (hok : lookup_material name = Except.ok m) :
    ¬ ∃ e, lookup_material name = Except.error e :=
  fun he => Except.noConfusion (hok.symm.trans he.choose_spec)

/-- C8 (confirmed): looking a name up in the material catalog fails with
a `ConfigurationError` exactly when the name is outside the fixed
enumerated set (fat, liver, muscle, water, skin, tissue, connective,
blood, lung_fluid, lung_air); a known name never fails. -/
theorem lookup_material_unknown_iff (name : String) :
    (∃ e, lookup_material name = Except.error e) ↔
      name ∉ known_material_names := by
  constructor
  · rintro ⟨e, he⟩ hmem
    simp only [known_material_names, List.mem_cons, List.not_mem_nil,
      or_false] at hmem
    rcases hmem with rfl | rfl | rfl | rfl | rfl | rfl | rfl | rfl | rfl | rfl
    · exact lookup_known_no_error (show lookup_material "fat" =
        Except.ok MaterialProperties.fat from rfl) ⟨e, he⟩
    · exact lookup_known_no_error (show lookup_material "liver" =
        Except.ok MaterialProperties.liver from rfl) ⟨e, he⟩
    · exact lookup_known_no_error (show lookup_material "muscle" =
        Except.ok MaterialProperties.muscle from rfl) ⟨e, he⟩
    · exact lookup_known_no_error (show lookup_material "water" =
        Except.ok MaterialProperties.water from rfl) ⟨e, he⟩
    · exact lookup_known_no_error (show lookup_material "skin" =
        Except.ok MaterialProperties.skin from rfl) ⟨e, he⟩
    · exact lookup_known_no_error (show lookup_material "tissue" =
        Except.ok MaterialProperties.tissue from rfl) ⟨e, he⟩
    · exact lookup_known_no_error (show lookup_material "connective" =
        Except.ok MaterialProperties.connective from rfl) ⟨e, he⟩
    · exact lookup_known_no_error (show lookup_material "blood" =
        Except.ok MaterialProperties.blood from rfl) ⟨e, he⟩
    · exact lookup_known_no_error (show lookup_material "lung_fluid" =
        Except.ok MaterialProperties.lung_fluid from rfl) ⟨e, he⟩
    · exact lookup_known_no_error (show lookup_material "lung_air" =
        Except.ok MaterialProperties.lung_air from rfl) ⟨e, he⟩
  · intro hmem
    have hn : ∀ s ∈ known_material_names, name ≠ s :=
      fun s hs h => hmem (h ▸ hs)
    have h1 : ¬ name = "fat" := hn "fat" (by decide)
    have h2 : ¬ name = "liver" := hn "liver" (by decide)
    have h3 : ¬ name = "muscle" := hn "muscle" (by decide)
    have h4 : ¬ name = "water" := hn "water" (by decide)
    have h5 : ¬ name = "skin" := hn "skin" (by decide)
    have h6 : ¬ name = "tissue" := hn "tissue" (by decide)
    have h7 : ¬ name = "connective" := hn "connective" (by decide)
    have h8 : ¬ name = "blood" := hn "blood" (by decide)
    have h9 : ¬ name = "lung_fluid" := hn "lung_fluid" (by decide)
    have h10 : ¬ name = "lung_air" := hn "lung_air" (by decide)
    refine ⟨ConfigurationError.unknown_material_name name, ?_⟩
    simp only [lookup_material, if_neg h1, if_neg h2, if_neg h3, if_neg h4,
      if_neg h5, if_neg h6, if_neg h7, if_neg h8, if_neg h9, if_neg h10]

/-- C9 (confirmed): every record the catalog returns has
`beta = 1 + bovera / 2`, fixed in the record at catalog initialisation
(`mk_material`); in particular water's beta is 3.5 and fat's is 5.8. -/
theorem material_beta_derived :
    (∀ name m, lookup_material name = Except.ok m →
      m.beta = 1 + m.bovera / 2) ∧
    MaterialProperties.water.beta = 3.5 ∧
    MaterialProperties.fat.beta = 5.8 := by
  refine ⟨?_, by norm_num [MaterialProperties.water, mk_material],
    by norm_num [MaterialProperties.fat, mk_material]⟩
  intro name m h
  unfold lookup_material at h
  split_ifs at h <;>
    first
      | exact Except.noConfusion h
      | (injection h with h; subst h; rfl)

/-- C9 (witness): the record looked up for "water" satisfies the derived
nonlinearity equation. -/
theorem material_beta_derived_witness :
    MaterialProperties.water.beta =
      1 + MaterialProperties.water.bovera / 2 :=
  material_beta_derived.1 "water" MaterialProperties.water rfl

/-- C10 (confirmed): the scatterer texture injection replaces the
background's density channel cell-by-cell with
`background.rho_map - scatterer.rho_map * csr` where `csr = 0.035 = 7/200`,
and leaves every other channel, the occupancy mask and the shape of the
background unchanged; the scatterer itself is never registered, so the
blend is additive rather than a layered override. -/
theorem scatterer_texture_injection (b s : SubDomain) (i j : Nat) :
    (add_scatterer b s).rho_map i j = b.rho_map i j - s.rho_map i j * csr ∧
    csr = 7 / 200 ∧
    (add_scatterer b s).c_map = b.c_map ∧
    (add_scatterer b s).a_map = b.a_map ∧
    (add_scatterer b s).beta_map = b.beta_map ∧
    (add_scatterer b s).air_map = b.air_map ∧
    (add_scatterer b s).geometry = b.geometry ∧
    (add_scatterer b s).occupancy_mask = b.occupancy_mask ∧
    (add_scatterer b s).num_x = b.num_x ∧
    (add_scatterer b s).num_y = b.num_y := by
  refine ⟨rfl, by norm_num [csr], rfl, rfl, rfl, rfl, rfl, rfl, rfl, rfl⟩
